import Mathlib

/-!
Shallow embedding of the conversation / prompt-assembly core of the
azure-openai-sample repository (src/chat.ts, src/facts.ts).

Remote HTTP calls are modelled as oracle parameters: each outbound
completion request is represented by the `ApiResponse` the remote side
returns (its HTTP status and the `choices[0].text` field).  The NodeCache
history store is modelled as a total map from scope strings to message
lists (a missing key is the empty list, matching `cache.get(scope) || []`);
its time-to-live behaviour is not modelled.  The enrichment callback is a
function that may fail (`Except Unit String` models a promise that can
reject).  File reads in facts.ts are modelled by passing the knowledge-base
file contents as a parameter.
-/

namespace AzureChat

/-- `Message.sender` values, chat.ts:57. -/
inductive Sender
  | user
  | assistant
  deriving DecidableEq, Repr

/-- A history entry, chat.ts:56-59. -/
structure Message where
  sender : Sender
  text : String
  deriving DecidableEq, Repr

/-- The string used for a sender in the prompt template, chat.ts:135. -/
def senderName : Sender → String
  | Sender.user => "user"
  | Sender.assistant => "assistant"

/-- The NodeCache history store (chat.ts:68, 82): scope → message list.
A key that was never set maps to `[]`, matching `this.cache.get(scope) || []`. -/
def Cache : Type := String → List Message

/-- `this.cache.set(scope, messages)`, chat.ts:152. -/
def Cache.set (c : Cache) (scope : String) (msgs : List Message) : Cache :=
  fun s => if s = scope then msgs else c s

/-- Errors the embedded code can raise: the `OpenAI API error` thrown on a
non-200 status (chat.ts:115, 182), a rejected enrichment promise
(chat.ts:128), and the JS TypeError from reading `.text` of an undefined
last element (chat.ts:126). -/
inductive ChatError
  | remoteAPIError (status : Nat)
  | enrichmentError
  | typeError
  deriving DecidableEq, Repr

/-- A remote completion response as the code consumes it: the HTTP status
and the `choices[0].text` field (`none` models an absent text). -/
structure ApiResponse where
  status : Nat
  text : Option String
  deriving Repr

/-- The `ChatConf` interface, chat.ts:4-52.  Optional fields are `Option`;
the enrichment callback may reject. -/
structure ChatConf where
  url : String
  model : String
  apiKey : String
  role : Option String
  apiVer : Option String
  memory : Option Nat
  enrich : Option (String → Except Unit String)

/-- The constructed `Chat` object's private fields, chat.ts:62-69. -/
structure Chat where
  role : String
  apiVer : String
  memory : Nat
  model : Option String
  apiKey : Option String
  enrich : Option (String → Except Unit String)

/-- JS truthiness assignment `if (conf.x) this.x = conf.x` for a string
field with default `d`: an absent or empty string keeps the default. -/
def orDefaultStr : Option String → String → String
  | some s, d => if s = "" then d else s
  | none, d => d

/-- JS truthiness assignment for a numeric field with default `d`: an
absent or zero value keeps the default. -/
def orDefaultNat : Option Nat → Nat → Nat
  | some n, d => if n = 0 then d else n
  | none, d => d

/-- The `Chat` constructor, chat.ts:71-83.  `model` and `apiKey` have no
default, so a falsy value leaves them undefined (`none`). -/
def mkChat (conf : ChatConf) : Chat where
  role := orDefaultStr conf.role "AI assistant"
  apiVer := orDefaultStr conf.apiVer "2022-12-01"
  memory := orDefaultNat conf.memory 10
  model := if conf.model = "" then none else some conf.model
  apiKey := if conf.apiKey = "" then none else some conf.apiKey
  enrich := conf.enrich

/-- JS `String.prototype.includes`: `sub` occurs somewhere in `s`. -/
def containsSub (s sub : String) : Bool :=
  (List.range (s.length + 1)).any fun i => sub.data.isPrefixOf (s.data.drop i)

/-- `Chat.setMessage`, chat.ts:144-155: append the message to the scope's
history, trim the oldest entry if the configured memory size is exceeded,
store and return the list.  An empty scope bypasses the store and returns
a singleton list. -/
def setMessage (ch : Chat) (cache : Cache) (scope : String) (sender : Sender)
    (text : String) : List Message × Cache :=
  let message : Message := ⟨sender, text⟩
  if scope = "" then ([message], cache)
  else
    let messages := cache scope ++ [message]
    let messages := if messages.length > ch.memory then messages.tail else messages
    (messages, cache.set scope messages)

/-- `Chat.extractSearchQuery`, chat.ts:167-192, as a function of the oracle
response of its own completion call: non-200 throws; an answer containing
an apology or not-a-valid-search-query marker yields the empty string. -/
def extractSearchQuery (res : ApiResponse) : Except ChatError String :=
  if res.status ≠ 200 then Except.error (ChatError.remoteAPIError res.status)
  else
    let answer := res.text.getD ""
    if containsSub answer "I\x27m sorry, but" ||
        containsSub answer "is not a valid search query" then
      Except.ok ""
    else
      Except.ok answer

/-- Lift an enrichment callback result: a rejected promise becomes an
`enrichmentError` aborting the surrounding `buildPrompt` (chat.ts:128 has
no try/catch around `await this.enrich(...)`). -/
def runEnrich (f : String → Except Unit String) (q : String) : Except ChatError String :=
  match f q with
  | Except.ok facts => Except.ok facts
  | Except.error _ => Except.error ChatError.enrichmentError

/-- The facts computation of `Chat.buildPrompt`, chat.ts:127-128:
`searchQuery || text` falls back to the raw text when the derived query is
empty; no callback means empty facts. -/
def promptFacts (ch : Chat) (extractRes : ApiResponse) (text : String) :
    Except ChatError String :=
  match extractSearchQuery extractRes with
  | Except.error e => Except.error e
  | Except.ok searchQuery =>
    match ch.enrich with
    | none => Except.ok ""
    | some f => runEnrich f (if searchQuery = "" then text else searchQuery)

/-- One history turn of the prompt template, chat.ts:135. -/
def turn (m : Message) : String :=
  "\n<|im_start|>" ++ senderName m.sender ++ "\n" ++ m.text ++ "\n<|im_end|>"

/-- `Chat.buildPrompt`, chat.ts:125-140.  Reads the last message's text
(a JS TypeError on an empty list), computes the facts, then assembles the
prompt.  The statement `prompt + "\n<|im_end|>"` at chat.ts:132 discards
its result, so no system-segment closing delimiter is appended. -/
def buildPrompt (ch : Chat) (extractRes : ApiResponse) (messages : List Message) :
    Except ChatError String :=
  match messages.getLast? with
  | none => Except.error ChatError.typeError
  | some lastMsg =>
    match promptFacts ch extractRes lastMsg.text with
    | Except.error e => Except.error e
    | Except.ok facts =>
      let prompt := "<|im_start|>system\n" ++ ch.role
      let prompt := if facts ≠ "" then prompt ++ "\n\nFacts:\n" ++ facts.trim else prompt
      let prompt := messages.foldl (fun p m => p ++ turn m) prompt
      Except.ok (prompt ++ "\n<|im_start|>assistant\n")

/-- `Chat.ask`, chat.ts:92-121, as a function of the two oracle responses
(the query-extraction call's and the main completion call's).  The user
message is stored first (chat.ts:94); a thrown error leaves that mutation
in place.  Generation parameters and per-call option overrides do not
affect the modelled state and are not represented.  Returns the answer
(or error) together with the cache after the call. -/
def ask (ch : Chat) (cache : Cache) (extractRes mainRes : ApiResponse)
    (text : String) (dlg : String) : Except ChatError String × Cache :=
  let userStep := setMessage ch cache dlg Sender.user text
  match buildPrompt ch extractRes userStep.1 with
  | Except.error e => (Except.error e, userStep.2)
  | Except.ok _prompt =>
    if mainRes.status ≠ 200 then
      (Except.error (ChatError.remoteAPIError mainRes.status), userStep.2)
    else
      let answer := mainRes.text.getD ""
      if answer ≠ "" then
        (Except.ok answer, (setMessage ch userStep.2 dlg Sender.assistant answer).2)
      else
        (Except.ok answer, userStep.2)

/-- `getFacts`, src/facts.ts: keyword lookup on the lowercased input; the
knowledge-base file contents are passed in as `kbFile`. -/
def getFacts (kbFile : String) (text : String) : String :=
  let t := text.toLower
  if containsSub t "food" || containsSub t "eat" || containsSub t "cuisine" then
    kbFile
  else
    ""

/-- The last `n` entries of a list, in order (the FIFO retention window). -/
def window (n : Nat) (l : List Message) : List Message :=
  l.drop (l.length - n)

/-- The prompt `ask` assembles for a call: `buildPrompt` applied to the
message list `setMessage` returns for the user turn (chat.ts:94-97). -/
def askPrompt (ch : Chat) (cache : Cache) (extractRes : ApiResponse)
    (text : String) (dlg : String) : Except ChatError String :=
  buildPrompt ch extractRes (setMessage ch cache dlg Sender.user text).1

/-- Whether a call of `ask` records an assistant answer, and which one:
`some a` when the prompt build succeeds, the main call returns 200 and the
answer `a` is non-empty; `none` otherwise. -/
def askOutcome (ch : Chat) (extractRes mainRes : ApiResponse) (text : String) :
    Option String :=
  match promptFacts ch extractRes text with
  | Except.error _ => none
  | Except.ok _ =>
    if mainRes.status ≠ 200 then none
    else
      let answer := mainRes.text.getD ""
      if answer ≠ "" then some answer else none

/-- The messages one `ask` call appends to a non-empty scope's history:
the user turn, then the assistant turn when one is recorded. -/
def askAppends (ch : Chat) (extractRes mainRes : ApiResponse) (text : String) :
    List Message :=
  ⟨Sender.user, text⟩ ::
    (match askOutcome ch extractRes mainRes text with
     | some a => [⟨Sender.assistant, a⟩]
     | none => [])

/-- One `ask` call's inputs: the question text and the two oracle responses. -/
structure AskCall where
  text : String
  extractRes : ApiResponse
  mainRes : ApiResponse

/-- The cache after a sequence of `ask` calls on a fixed scope. -/
def runAsks (ch : Chat) (cache : Cache) (dlg : String) (calls : List AskCall) : Cache :=
  calls.foldl (fun c k => (ask ch c k.extractRes k.mainRes k.text dlg).2) cache

/-- All messages a sequence of `ask` calls appends, oldest first. -/
def callsLog (ch : Chat) (calls : List AskCall) : List Message :=
  match calls with
  | [] => []
  | k :: ks => askAppends ch k.extractRes k.mainRes k.text ++ callsLog ch ks

/-- The system segment of the assembled prompt: role description plus the
optional facts block (chat.ts:130-131), with no closing delimiter. -/
def systemSegment (role facts : String) : String :=
  let p := "<|im_start|>system\n" ++ role
  if facts ≠ "" then p ++ "\n\nFacts:\n" ++ facts.trim else p

/-- The concatenation of the history turns of the prompt. -/
def joinTurns : List Message → String
  | [] => ""
  | m :: ms => turn m ++ joinTurns ms

/-- The trailing empty assistant turn marker, chat.ts:138. -/
def assistantCue : String := "\n<|im_start|>assistant\n"

/-- The keyword condition of `getFacts`: the input contains "food", "eat"
or "cuisine" case-insensitively. -/
def hasFoodKeyword (text : String) : Bool :=
  containsSub text.toLower "food" || containsSub text.toLower "eat" ||
    containsSub text.toLower "cuisine"

/-! Concrete instances used to instantiate the theorems. -/

/-- The empty history cache. -/
def cacheEmpty : Cache := fun _ => []

/-- A chat with no enrichment callback and memory size 2. -/
def chatMem2 : Chat :=
  ⟨"AI assistant", "2022-12-01", 2, none, none, none⟩

/-- A chat with no enrichment callback and the default memory size. -/
def chatPlain : Chat :=
  ⟨"AI assistant", "2022-12-01", 10, none, none, none⟩

/-- A chat whose enrichment callback always fails (a rejecting promise). -/
def chatFailEnrich : Chat :=
  ⟨"AI assistant", "2022-12-01", 10, none, none,
    some (fun _ => Except.error ())⟩

/-- A chat whose enrichment callback succeeds, echoing its query. -/
def chatEchoEnrich : Chat :=
  ⟨"AI assistant", "2022-12-01", 10, none, none,
    some (fun q => Except.ok q)⟩

/-- A 200 response with an empty answer text. -/
def resOkEmpty : ApiResponse := ⟨200, some ""⟩

/-- Three ask calls whose main responses carry no answer text, so each
appends exactly one user turn. -/
def threeUserCalls : List AskCall :=
  [⟨"t1", resOkEmpty, ⟨200, none⟩⟩, ⟨"t2", resOkEmpty, ⟨200, none⟩⟩,
   ⟨"t3", resOkEmpty, ⟨200, none⟩⟩]

/-- A 200 query-extraction response carrying a negative marker phrase. -/
def resMarker : ApiResponse := ⟨200, some "That is not a valid search query"⟩

/-- The prompt assembled for a single user turn "A" with no facts: note
there is no `<|im_end|>` after the system segment. -/
def promptNoClose : String :=
  "<|im_start|>system\nAI assistant\n<|im_start|>user\nA\n<|im_end|>\n<|im_start|>assistant\n"

/-- A configuration with zero memory, empty role and absent apiVer. -/
def confZero : ChatConf :=
  ⟨"https://x.openai.azure.com", "gpt-35-turbo", "key", some "", none, some 0, none⟩

/-! Helper lemmas. -/

theorem length_window_le (n : Nat) (l : List Message) : (window n l).length ≤ n := by
  simp only [window, List.length_drop]
  omega

theorem window_of_le (n : Nat) (l : List Message) (h : l.length ≤ n) :
    window n l = l := by
  simp only [window]
  rw [Nat.sub_eq_zero_of_le h, List.drop_zero]

theorem window_concat (n : Nat) (l : List Message) (x : Message) :
    (if (window n l ++ [x]).length > n then (window n l ++ [x]).tail
      else window n l ++ [x]) = window n (l ++ [x]) := by
  rcases Nat.lt_or_ge l.length n with h | h
  · have hc : ¬ ((window n l ++ [x]).length > n) := by
      simp only [window, List.length_append, List.length_drop, List.length_cons,
        List.length_nil]
      omega
    rw [if_neg hc, window, window]
    have e1 : l.length - n = 0 := by omega
    have e2 : (l ++ [x]).length - n = 0 := by
      simp only [List.length_append, List.length_cons, List.length_nil]
      omega
    rw [e1, e2, List.drop_zero, List.drop_zero]
  · have hc : (window n l ++ [x]).length > n := by
      simp only [window, List.length_append, List.length_drop, List.length_cons,
        List.length_nil]
      omega
    rw [if_pos hc]
    rcases Nat.eq_zero_or_pos n with hn | hn
    · subst hn
      simp only [window, Nat.sub_zero, List.drop_length]
      simp
    · have h1 : 1 ≤ (window n l).length := by
        simp only [window, List.length_drop]
        omega
      have h2 : (l ++ [x]).length - n ≤ l.length := by
        simp only [List.length_append, List.length_cons, List.length_nil]
        omega
      rw [← List.drop_one, List.drop_append_of_le_length h1, window, window,
        List.drop_drop, List.drop_append_of_le_length h2]
      congr 2
      simp only [List.length_append, List.length_cons, List.length_nil]
      omega

theorem setMessage_store (ch : Chat) (cache : Cache) (scope : String) (s : Sender)
    (t : String) (log : List Message) (hs : scope ≠ "")
    (hc : cache scope = window ch.memory log) :
    (setMessage ch cache scope s t).1 = window ch.memory (log ++ [⟨s, t⟩]) ∧
      (setMessage ch cache scope s t).2 scope = window ch.memory (log ++ [⟨s, t⟩]) := by
  simp only [setMessage, if_neg hs, hc, Cache.set]
  refine ⟨window_concat ch.memory log ⟨s, t⟩, ?_⟩
  simpa using window_concat ch.memory log ⟨s, t⟩

theorem setMessage_getLast (ch : Chat) (cache : Cache) (dlg : String) (s : Sender)
    (t : String) (hmem : 1 ≤ ch.memory) :
    ((setMessage ch cache dlg s t).1).getLast? = some ⟨s, t⟩ := by
  by_cases hd : dlg = ""
  · simp [setMessage, hd]
  · simp only [setMessage, if_neg hd]
    by_cases hlen : (cache dlg ++ [(⟨s, t⟩ : Message)]).length > ch.memory
    · rw [if_pos hlen]
      have h1 : 1 ≤ (cache dlg).length := by
        simp only [List.length_append, List.length_cons, List.length_nil] at hlen
        omega
      rw [← List.drop_one, List.drop_append_of_le_length h1]
      exact List.getLast?_concat _
    · rw [if_neg hlen]
      exact List.getLast?_concat _

theorem foldl_turn (messages : List Message) : ∀ a : String,
    messages.foldl (fun p m => p ++ turn m) a = a ++ joinTurns messages := by
  induction messages with
  | nil => intro a; simp [joinTurns]
  | cons m ms ih =>
    intro a
    simp only [List.foldl_cons, joinTurns, ih, String.append_assoc]

theorem buildPrompt_eq (ch : Chat) (e : ApiResponse) (messages : List Message)
    (lm : Message) (h : messages.getLast? = some lm) :
    buildPrompt ch e messages =
      match promptFacts ch e lm.text with
      | Except.error err => Except.error err
      | Except.ok facts =>
        Except.ok (systemSegment ch.role facts ++ (joinTurns messages ++ assistantCue)) := by
  simp only [buildPrompt, h]
  cases hf : promptFacts ch e lm.text with
  | error err => rfl
  | ok facts =>
    simp only [foldl_turn, systemSegment, assistantCue, String.append_assoc]

theorem ask_characterisation (ch : Chat) (cache : Cache) (e m : ApiResponse)
    (t dlg : String) (hmem : 1 ≤ ch.memory) :
    ask ch cache e m t dlg =
      (match promptFacts ch e t with
       | Except.error err => Except.error err
       | Except.ok _ =>
         if m.status ≠ 200 then Except.error (ChatError.remoteAPIError m.status)
         else Except.ok (m.text.getD ""),
       match askOutcome ch e m t with
       | none => (setMessage ch cache dlg Sender.user t).2
       | some a =>
         (setMessage ch (setMessage ch cache dlg Sender.user t).2 dlg
           Sender.assistant a).2) := by
  have hl := setMessage_getLast ch cache dlg Sender.user t hmem
  simp only [ask, buildPrompt_eq ch e _ _ hl, askOutcome]
  cases hf : promptFacts ch e t with
  | error err => rfl
  | ok facts =>
    simp only []
    by_cases hs : m.status ≠ 200
    · simp [hs]
    · simp only [hs, if_neg, if_false, ite_false]
      by_cases ha : m.text.getD "" ≠ ""
      · simp [hs, ha]
      · simp [hs, ha]

theorem ask_cache_window (ch : Chat) (cache : Cache) (e m : ApiResponse)
    (t dlg : String) (log : List Message) (hmem : 1 ≤ ch.memory) (hs : dlg ≠ "")
    (hc : cache dlg = window ch.memory log) :
    (ask ch cache e m t dlg).2 dlg =
      window ch.memory (log ++ askAppends ch e m t) := by
  rw [ask_characterisation ch cache e m t dlg hmem]
  simp only [askAppends]
  have hu := setMessage_store ch cache dlg Sender.user t log hs hc
  cases ho : askOutcome ch e m t with
  | none =>
    simpa using hu.2
  | some a =>
    have ha := setMessage_store ch (setMessage ch cache dlg Sender.user t).2 dlg
      Sender.assistant a (log ++ [⟨Sender.user, t⟩]) hs hu.2
    simpa [List.append_assoc] using ha.2

theorem ask_cache_other (ch : Chat) (cache : Cache) (e m : ApiResponse)
    (t dlg s : String) (hne : s ≠ dlg) :
    (ask ch cache e m t dlg).2 s = cache s := by
  have hset : ∀ (c : Cache) (snd : Sender) (txt : String),
      (setMessage ch c dlg snd txt).2 s = c s := by
    intro c snd txt
    by_cases hd : dlg = ""
    · simp [setMessage, hd]
    · simp [setMessage, hd, Cache.set, hne]
  simp only [ask]
  cases hb : buildPrompt ch e (setMessage ch cache dlg Sender.user t).1 with
  | error err => simp [hset]
  | ok p =>
    simp only []
    by_cases hs200 : m.status ≠ 200
    · simp [hs200, hset]
    · by_cases ha : m.text.getD "" ≠ ""
      · simp [hs200, ha, hset]
      · simp [hs200, ha, hset]

theorem runAsks_window (ch : Chat) (dlg : String) (hmem : 1 ≤ ch.memory)
    (hs : dlg ≠ "") : ∀ (calls : List AskCall) (cache : Cache) (log : List Message),
    cache dlg = window ch.memory log →
    runAsks ch cache dlg calls dlg = window ch.memory (log ++ callsLog ch calls) := by
  intro calls
  induction calls with
  | nil =>
    intro cache log hc
    simpa [runAsks, callsLog] using hc
  | cons k ks ih =>
    intro cache log hc
    have hstep := ask_cache_window ch cache k.extractRes k.mainRes k.text dlg log
      hmem hs hc
    have := ih ((ask ch cache k.extractRes k.mainRes k.text dlg).2)
      (log ++ askAppends ch k.extractRes k.mainRes k.text) hstep
    simpa [runAsks, callsLog, List.append_assoc] using this

theorem ask_empty_scope_eq (ch : Chat) (cache : Cache) (e m : ApiResponse)
    (t : String) :
    ask ch cache e m t "" =
      (match promptFacts ch e t with
       | Except.error err => Except.error err
       | Except.ok _ =>
         if m.status ≠ 200 then Except.error (ChatError.remoteAPIError m.status)
         else Except.ok (m.text.getD ""),
       cache) := by
  have hl : ((setMessage ch cache "" Sender.user t).1).getLast? =
      some ⟨Sender.user, t⟩ := by
    simp [setMessage]
  simp only [ask, buildPrompt_eq ch e _ _ hl]
  cases hf : promptFacts ch e t with
  | error err => simp [setMessage]
  | ok facts =>
    simp only []
    by_cases hs200 : m.status ≠ 200
    · simp [hs200, setMessage]
    · by_cases ha : m.text.getD "" ≠ ""
      · simp [hs200, ha, setMessage]
      · simp [hs200, ha, setMessage]

/-! Claim theorems. -/

/-- C1: for every sequence of `ask` calls on the same non-empty scope, the
retained history after the sequence is exactly the window of the last
`memory` appended entries, oldest first (so its length never exceeds the
memory size and each overflowing append discards exactly the oldest
entry), for any starting cache that itself holds a window. -/
theorem history_fifo_window (ch : Chat) (dlg : String) (calls : List AskCall)
    (cache : Cache) (log : List Message) (hmem : 1 ≤ ch.memory) (hdlg : dlg ≠ "")
    (hc : cache dlg = window ch.memory log) :
    runAsks ch cache dlg calls dlg = window ch.memory (log ++ callsLog ch calls) ∧
      (runAsks ch cache dlg calls dlg).length ≤ ch.memory := by
  have h := runAsks_window ch dlg hmem hdlg calls cache log hc
  exact ⟨h, h ▸ length_window_le _ _⟩

/-- C1 witness: memory size 2, three sequential appends to scope "room1";
only the last two entries remain retrievable. -/
theorem history_fifo_window_witness :
    1 ≤ chatMem2.memory ∧ ("room1" : String) ≠ "" ∧
    (runAsks chatMem2 cacheEmpty "room1" threeUserCalls "room1" =
        window chatMem2.memory ([] ++ callsLog chatMem2 threeUserCalls) ∧
      (runAsks chatMem2 cacheEmpty "room1" threeUserCalls "room1").length ≤
        chatMem2.memory) ∧
    runAsks chatMem2 cacheEmpty "room1" threeUserCalls "room1" =
      [⟨Sender.user, "t2"⟩, ⟨Sender.user, "t3"⟩] :=
  ⟨by decide, by decide,
    history_fifo_window chatMem2 "room1" threeUserCalls cacheEmpty []
      (by decide) (by decide) rfl,
    by rfl⟩

/-- C3: when the prompt build succeeds and the main completion call
returns a non-200 status, `ask` fails with an error carrying that status
and the cache holds only the user-turn mutation — no assistant entry. -/
theorem completion_failure_no_append (ch : Chat) (cache : Cache)
    (e m : ApiResponse) (t dlg f : String) (hmem : 1 ≤ ch.memory)
    (he : promptFacts ch e t = Except.ok f) (hm : m.status ≠ 200) :
    ask ch cache e m t dlg =
      (Except.error (ChatError.remoteAPIError m.status),
        (setMessage ch cache dlg Sender.user t).2) := by
  rw [ask_characterisation ch cache e m t dlg hmem]
  simp [he, hm, askOutcome]

/-- C3 witness: a 500 response makes `ask` fail with status 500 and leave
only the user turn in the cache. -/
theorem completion_failure_no_append_witness :
    1 ≤ chatPlain.memory ∧
    promptFacts chatPlain resOkEmpty "hi" = Except.ok "" ∧
    (500 : Nat) ≠ 200 ∧
    ask chatPlain cacheEmpty resOkEmpty ⟨500, none⟩ "hi" "room1" =
      (Except.error (ChatError.remoteAPIError 500),
        (setMessage chatPlain cacheEmpty "room1" Sender.user "hi").2) :=
  ⟨by decide, rfl, by decide,
    completion_failure_no_append chatPlain cacheEmpty resOkEmpty ⟨500, none⟩
      "hi" "room1" "" (by decide) rfl (by decide)⟩

/-- C4: an `ask` call with an empty conversation scope leaves the stored
history exactly as it was, and its returned answer does not depend on the
stored history at all (any two caches give the same result). -/
theorem empty_scope_independent (ch : Chat) (cache cache2 : Cache)
    (e m : ApiResponse) (t : String) :
    (ask ch cache e m t "").2 = cache ∧
    (ask ch cache e m t "").1 = (ask ch cache2 e m t "").1 := by
  rw [ask_empty_scope_eq ch cache e m t, ask_empty_scope_eq ch cache2 e m t]
  exact ⟨rfl, rfl⟩

/-- C5: when the prompt build succeeds and the main completion call
returns 200, `ask` returns the answer text (empty string when absent) and
appends an assistant entry exactly when the answer is non-empty. -/
theorem empty_answer_no_append (ch : Chat) (cache : Cache) (e m : ApiResponse)
    (t dlg f : String) (hmem : 1 ≤ ch.memory)
    (he : promptFacts ch e t = Except.ok f) (hm : m.status = 200) :
    ask ch cache e m t dlg =
      (Except.ok (m.text.getD ""),
        if m.text.getD "" = "" then (setMessage ch cache dlg Sender.user t).2
        else (setMessage ch (setMessage ch cache dlg Sender.user t).2 dlg
          Sender.assistant (m.text.getD "")).2) := by
  rw [ask_characterisation ch cache e m t dlg hmem]
  by_cases ha : m.text.getD "" = ""
  · simp [he, hm, ha, askOutcome]
  · simp [he, hm, ha, askOutcome]

/-- C5 witness: a 200 response with empty answer text returns the empty
string and appends no assistant entry. -/
theorem empty_answer_no_append_witness :
    1 ≤ chatPlain.memory ∧
    promptFacts chatPlain resOkEmpty "hi" = Except.ok "" ∧
    resOkEmpty.status = 200 ∧
    ask chatPlain cacheEmpty resOkEmpty resOkEmpty "hi" "room1" =
      (Except.ok (resOkEmpty.text.getD ""),
        if resOkEmpty.text.getD "" = "" then
          (setMessage chatPlain cacheEmpty "room1" Sender.user "hi").2
        else (setMessage chatPlain
          (setMessage chatPlain cacheEmpty "room1" Sender.user "hi").2 "room1"
          Sender.assistant (resOkEmpty.text.getD "")).2) :=
  ⟨by decide, rfl, rfl,
    empty_answer_no_append chatPlain cacheEmpty resOkEmpty resOkEmpty
      "hi" "room1" "" (by decide) rfl rfl⟩

theorem window_nil (n : Nat) : window n [] = [] := by
  simp [window]

/-- C2: starting from a fresh "room1" scope whose memory can hold three
entries, after a first `ask` with text "A" that recorded answer "B", the
prompt assembled by a second `ask` with text "C" is exactly the system
segment, then the user turn "A", the assistant turn "B", the user turn
"C", and the empty assistant continuation marker, in that order. -/
theorem roundtrip_prompt (ch : Chat) (cache0 : Cache) (e1 e2 : ApiResponse)
    (f1 f2 : String) (hmem : 3 ≤ ch.memory) (h0 : cache0 "room1" = [])
    (he1 : promptFacts ch e1 "A" = Except.ok f1)
    (he2 : promptFacts ch e2 "C" = Except.ok f2) :
    askPrompt ch (ask ch cache0 e1 ⟨200, some "B"⟩ "A" "room1").2 e2 "C" "room1" =
      Except.ok (systemSegment ch.role f2 ++
        (turn ⟨Sender.user, "A"⟩ ++ (turn ⟨Sender.assistant, "B"⟩ ++
          (turn ⟨Sender.user, "C"⟩ ++ assistantCue)))) := by
  have hmem1 : 1 ≤ ch.memory := by omega
  have hw := ask_cache_window ch cache0 e1 ⟨200, some "B"⟩ "A" "room1" [] hmem1
    (by decide) (by rw [h0, window_nil])
  have hc1 : (ask ch cache0 e1 ⟨200, some "B"⟩ "A" "room1").2 "room1" =
      window ch.memory (askAppends ch e1 ⟨200, some "B"⟩ "A") := by
    simpa using hw
  have hlenApp : (askAppends ch e1 ⟨200, some "B"⟩ "A").length ≤ 2 := by
    cases ho : askOutcome ch e1 ⟨200, some "B"⟩ "A" <;> simp [askAppends, ho]
  have hstore := setMessage_store ch (ask ch cache0 e1 ⟨200, some "B"⟩ "A" "room1").2
    "room1" Sender.user "C" (askAppends ch e1 ⟨200, some "B"⟩ "A") (by decide) hc1
  have hmsgs : (setMessage ch (ask ch cache0 e1 ⟨200, some "B"⟩ "A" "room1").2
      "room1" Sender.user "C").1 =
      askAppends ch e1 ⟨200, some "B"⟩ "A" ++ [⟨Sender.user, "C"⟩] := by
    have hlen2 : (askAppends ch e1 ⟨200, some "B"⟩ "A" ++
        [(⟨Sender.user, "C"⟩ : Message)]).length ≤ ch.memory := by
      simp only [List.length_append, List.length_cons, List.length_nil]
      omega
    rw [hstore.1, window_of_le _ _ hlen2]
  have ho : askOutcome ch e1 ⟨200, some "B"⟩ "A" = some "B" := by
    simp [askOutcome, he1]
  rw [askPrompt, hmsgs]
  have hlast : ((askAppends ch e1 ⟨200, some "B"⟩ "A" ++
      [(⟨Sender.user, "C"⟩ : Message)]).getLast?) = some ⟨Sender.user, "C"⟩ :=
    List.getLast?_concat _
  rw [buildPrompt_eq ch e2 _ ⟨Sender.user, "C"⟩ hlast]
  simp [he2, askAppends, ho, joinTurns, String.append_assoc]

/-- C2 witness: concrete round-trip with no enrichment callback. -/
theorem roundtrip_prompt_witness :
    3 ≤ chatPlain.memory ∧ cacheEmpty "room1" = [] ∧
    promptFacts chatPlain resOkEmpty "A" = Except.ok "" ∧
    promptFacts chatPlain resOkEmpty "C" = Except.ok "" ∧
    askPrompt chatPlain
        (ask chatPlain cacheEmpty resOkEmpty ⟨200, some "B"⟩ "A" "room1").2
        resOkEmpty "C" "room1" =
      Except.ok (systemSegment chatPlain.role "" ++
        (turn ⟨Sender.user, "A"⟩ ++ (turn ⟨Sender.assistant, "B"⟩ ++
          (turn ⟨Sender.user, "C"⟩ ++ assistantCue)))) :=
  ⟨by decide, rfl, rfl, rfl,
    roundtrip_prompt chatPlain cacheEmpty resOkEmpty resOkEmpty "" ""
      (by decide) rfl rfl rfl⟩

/-- C6 counterexample: with a failing enrichment callback, a 200 main
response carrying answer "B" and otherwise well-behaved inputs, `ask`
aborts with an enrichment error instead of completing the answer path. -/
theorem enrich_failure_cex :
    (ask chatFailEnrich cacheEmpty resOkEmpty ⟨200, some "B"⟩ "hi" "room1").1 =
      Except.error ChatError.enrichmentError ∧
    (ask chatFailEnrich cacheEmpty resOkEmpty ⟨200, some "B"⟩ "hi" "room1").1 ≠
      Except.ok "B" := by
  constructor
  · rfl
  · intro h
    rw [show (ask chatFailEnrich cacheEmpty resOkEmpty ⟨200, some "B"⟩
        "hi" "room1").1 = Except.error ChatError.enrichmentError from rfl] at h
    exact Except.noConfusion h

/-- C6 amended: when the configured enrichment callback fails, `ask` does
not treat the failure as "no facts": the failure propagates, `ask` aborts
with an enrichment error, and no assistant entry is appended (only the
user-turn mutation remains). -/
theorem enrich_failure_propagates (ch : Chat) (cache : Cache) (e m : ApiResponse)
    (t dlg q : String) (f : String → Except Unit String)
    (hmem : 1 ≤ ch.memory) (hf : ch.enrich = some f)
    (hq : extractSearchQuery e = Except.ok q)
    (hfail : f (if q = "" then t else q) = Except.error ()) :
    ask ch cache e m t dlg =
      (Except.error ChatError.enrichmentError,
        (setMessage ch cache dlg Sender.user t).2) := by
  have hp : promptFacts ch e t = Except.error ChatError.enrichmentError := by
    simp [promptFacts, hq, hf, runEnrich, hfail]
  rw [ask_characterisation ch cache e m t dlg hmem]
  simp [hp, askOutcome]

/-- C6 amended witness. -/
theorem enrich_failure_propagates_witness :
    1 ≤ chatFailEnrich.memory ∧
    chatFailEnrich.enrich = some (fun _ => Except.error ()) ∧
    extractSearchQuery resOkEmpty = Except.ok "" ∧
    (fun _ => Except.error () : String → Except Unit String)
        (if ("" : String) = "" then "hi" else "") = Except.error () ∧
    ask chatFailEnrich cacheEmpty resOkEmpty ⟨200, some "B"⟩ "hi" "room1" =
      (Except.error ChatError.enrichmentError,
        (setMessage chatFailEnrich cacheEmpty "room1" Sender.user "hi").2) :=
  ⟨by decide, rfl, rfl, rfl,
    enrich_failure_propagates chatFailEnrich cacheEmpty resOkEmpty
      ⟨200, some "B"⟩ "hi" "room1" "" (fun _ => Except.error ())
      (by decide) rfl rfl rfl⟩

/-- C7: every successfully assembled prompt is the system segment followed
directly by the history turns and the trailing assistant cue, with no
closing `<|im_end|>` delimiter after the system segment — the closed
variant is a different string. -/
theorem system_close_omitted (ch : Chat) (e : ApiResponse)
    (messages : List Message) (p : String)
    (h : buildPrompt ch e messages = Except.ok p) :
    ∃ facts,
      p = systemSegment ch.role facts ++ (joinTurns messages ++ assistantCue) ∧
      p ≠ systemSegment ch.role facts ++
        ("\n<|im_end|>" ++ (joinTurns messages ++ assistantCue)) := by
  cases hl : messages.getLast? with
  | none =>
    rw [buildPrompt, hl] at h
    exact absurd h (by simp)
  | some lm =>
    rw [buildPrompt_eq ch e messages lm hl] at h
    cases hf : promptFacts ch e lm.text with
    | error err =>
      rw [hf] at h
      exact absurd h (by simp)
    | ok facts =>
      rw [hf] at h
      have hp : p = systemSegment ch.role facts ++ (joinTurns messages ++ assistantCue) := by
        simpa using h.symm
      subst hp
      refine ⟨facts, rfl, ?_⟩
      intro hbad
      have hlen := congrArg String.length hbad
      have hmid : ("\n<|im_end|>" : String).length = 11 := by decide
      simp only [String.length_append, hmid] at hlen
      omega

/-- C7 witness: the concrete single-turn prompt, whose literal text shows
the system segment running straight into the first user turn. -/
theorem system_close_omitted_witness :
    ∃ facts,
      promptNoClose = systemSegment chatPlain.role facts ++
        (joinTurns [⟨Sender.user, "A"⟩] ++ assistantCue) ∧
      promptNoClose ≠ systemSegment chatPlain.role facts ++
        ("\n<|im_end|>" ++ (joinTurns [⟨Sender.user, "A"⟩] ++ assistantCue)) :=
  system_close_omitted chatPlain resOkEmpty [⟨Sender.user, "A"⟩] promptNoClose
    (by rfl)

/-- C8: a 200 query-extraction response containing a marker phrase yields
the empty string; an empty derived query makes the enrichment callback run
on the raw text, a non-empty one on the derived query; and with no
callback configured the facts are silently empty. -/
theorem query_extraction_fallback (ch : Chat) (e : ApiResponse) (t : String)
    (f : String → Except Unit String) :
    (e.status = 200 →
      (containsSub (e.text.getD "") "I\x27m sorry, but" ||
        containsSub (e.text.getD "") "is not a valid search query") = true →
      extractSearchQuery e = Except.ok "") ∧
    (∀ q, extractSearchQuery e = Except.ok q → ch.enrich = some f →
      promptFacts ch e t = runEnrich f (if q = "" then t else q)) ∧
    (ch.enrich = none → ∀ q, extractSearchQuery e = Except.ok q →
      promptFacts ch e t = Except.ok "") := by
  refine ⟨?_, ?_, ?_⟩
  · intro h200 hmark
    simp [extractSearchQuery, h200, hmark]
  · intro q hq hf
    simp [promptFacts, hq, hf]
  · intro hn q hq
    simp [promptFacts, hq, hn]

/-- C8 witness: a marker response yields the empty query; the echoing
callback is then invoked with the raw text; with no callback the facts
are empty. -/
theorem query_extraction_fallback_witness :
    resMarker.status = 200 ∧
    (containsSub (resMarker.text.getD "") "I\x27m sorry, but" ||
      containsSub (resMarker.text.getD "") "is not a valid search query") = true ∧
    extractSearchQuery resMarker = Except.ok "" ∧
    chatEchoEnrich.enrich = some (fun q => Except.ok q) ∧
    promptFacts chatEchoEnrich resMarker "raw" =
      runEnrich (fun q => Except.ok q) (if ("" : String) = "" then "raw" else "") ∧
    chatPlain.enrich = none ∧
    promptFacts chatPlain resMarker "raw" = Except.ok "" :=
  ⟨rfl, by decide,
    (query_extraction_fallback chatPlain resMarker "raw"
      (fun q => Except.ok q)).1 rfl (by decide),
    rfl,
    (query_extraction_fallback chatEchoEnrich resMarker "raw"
      (fun q => Except.ok q)).2.1 "" rfl rfl,
    rfl,
    (query_extraction_fallback chatPlain resMarker "raw"
      (fun q => Except.ok q)).2.2 rfl "" rfl⟩

/-- C9: for a non-empty knowledge base, `getFacts` returns the
knowledge-base contents exactly when the input contains "food", "eat" or
"cuisine" case-insensitively, and the empty string otherwise. -/
theorem getFacts_keyword (kb text : String) (h : kb ≠ "") :
    ((getFacts kb text = kb) ↔ hasFoodKeyword text = true) ∧
    (hasFoodKeyword text = false → getFacts kb text = "") := by
  by_cases hk : hasFoodKeyword text = true
  · have hcond : (containsSub text.toLower "food" || containsSub text.toLower "eat" ||
        containsSub text.toLower "cuisine") = true := by
      simpa [hasFoodKeyword] using hk
    constructor
    · simp [getFacts, hcond, hk]
    · intro hfalse
      rw [hk] at hfalse
      cases hfalse
  · have hk2 : hasFoodKeyword text = false := by
      cases hb : hasFoodKeyword text
      · rfl
      · exact absurd hb hk
    have hcond : (containsSub text.toLower "food" || containsSub text.toLower "eat" ||
        containsSub text.toLower "cuisine") = false := by
      simpa [hasFoodKeyword] using hk2
    constructor
    · simp [getFacts, hcond, hk2, eq_comm, h]
    · intro _
      simp [getFacts, hcond]

/-- C9 witness: an input mentioning "EAT" returns the knowledge base
contents; the keyword test evaluates accordingly. -/
theorem getFacts_keyword_witness :
    ("KB" : String) ≠ "" ∧
    (((getFacts "KB" "Where to EAT in Marseoni" = "KB") ↔
        hasFoodKeyword "Where to EAT in Marseoni" = true) ∧
      (hasFoodKeyword "Where to EAT in Marseoni" = false →
        getFacts "KB" "Where to EAT in Marseoni" = "")) :=
  ⟨by decide, getFacts_keyword "KB" "Where to EAT in Marseoni" (by decide)⟩

/-- C10: a zero or absent memory in the configuration keeps the default
window of 10 (so the constructed memory is always positive), and an empty
or absent role or apiVer keeps the built-in defaults. -/
theorem constructor_defaults (conf : ChatConf) :
    ((conf.memory = none ∨ conf.memory = some 0) → (mkChat conf).memory = 10) ∧
    0 < (mkChat conf).memory ∧
    ((conf.role = none ∨ conf.role = some "") →
      (mkChat conf).role = "AI assistant") ∧
    ((conf.apiVer = none ∨ conf.apiVer = some "") →
      (mkChat conf).apiVer = "2022-12-01") := by
  refine ⟨?_, ?_, ?_, ?_⟩
  · rintro (h | h) <;> simp [mkChat, orDefaultNat, h]
  · cases hm : conf.memory with
    | none => simp [mkChat, orDefaultNat, hm]
    | some n =>
      by_cases hn : n = 0
      · simp [mkChat, orDefaultNat, hm, hn]
      · simp only [mkChat, orDefaultNat, hm, if_neg hn]
        omega
  · rintro (h | h) <;> simp [mkChat, orDefaultStr, h]
  · rintro (h | h) <;> simp [mkChat, orDefaultStr, h]

/-- C10 witness: memory 0, empty role and absent apiVer all fall back to
the defaults. -/
theorem constructor_defaults_witness :
    (mkChat confZero).memory = 10 ∧ 0 < (mkChat confZero).memory ∧
    (mkChat confZero).role = "AI assistant" ∧
    (mkChat confZero).apiVer = "2022-12-01" :=
  ⟨(constructor_defaults confZero).1 (Or.inr rfl),
    (constructor_defaults confZero).2.1,
    (constructor_defaults confZero).2.2.1 (Or.inr rfl),
    (constructor_defaults confZero).2.2.2 (Or.inl rfl)⟩

end AzureChat
